import Mathlib

/-!
Verification of the playground-ng runtime-file protocol and progress UI
sync barrier, as a shallow embedding of the Go sources
(components/playground-ng/daemon_files.go, kill_unix.go, and
pkg/tuiv2/progress/ui.go).

Filesystem state is embedded as explicit data (the contents of the `pid`
and `port` marker files of one dataDir plus the modification age of the
`pid` file); the OS and network oracles (signal 0 delivery, the bounded
HTTP liveness probe) are embedded as explicit inputs classifying the
outcomes the Go code distinguishes.

The Go standard-library string helpers (strings.TrimSpace, strings.Split,
strings.HasPrefix, strconv.Atoi) are embedded as structurally recursive
functions over character lists so that every definition evaluates inside
the kernel.
-/

namespace PlaygroundNG

/-- Wire reply of the command server, mirroring the Go struct CommandReply
with fields OK, Message, Error. -/
structure CommandReply where
  ok : Bool
  message : String
  error : String
deriving DecidableEq, Repr

instance {ε α : Type} [DecidableEq ε] [DecidableEq α] : DecidableEq (Except ε α) := fun x y =>
  match x, y with
  | .ok a, .ok b =>
    if h : a = b then isTrue (by rw [h]) else isFalse (fun hc => h (by cases hc; rfl))
  | .error a, .error b =>
    if h : a = b then isTrue (by rw [h]) else isFalse (fun hc => h (by cases hc; rfl))
  | .ok _, .error _ => isFalse (fun hc => Except.noConfusion hc)
  | .error _, .ok _ => isFalse (fun hc => Except.noConfusion hc)

/-- Embedding of strings.TrimSpace on a character list: remove leading and
trailing whitespace. -/
def trimChars (l : List Char) : List Char :=
  ((l.dropWhile Char.isWhitespace).reverse.dropWhile Char.isWhitespace).reverse

/-- strings.TrimSpace on a string. -/
def goTrim (s : String) : String := ⟨trimChars s.data⟩

/-- Embedding of strings.Split(s, newline): split a character list at
every newline; the empty input yields one empty field. -/
def splitLines : List Char → List (List Char)
  | [] => [[]]
  | c :: rest =>
    let r := splitLines rest
    if c = '\n' then [] :: r
    else (c :: r.headI) :: r.tail

/-- Embedding of strings.HasPrefix: hasPref p l holds when p starts l. -/
def hasPref : List Char → List Char → Bool
  | [], _ => true
  | _ :: _, [] => false
  | p :: ps, c :: cs => p = c && hasPref ps cs

/-- Embedding of strings.Contains: the needle occurs inside the hay. -/
def containsSub (needle : List Char) : List Char → Bool
  | [] => hasPref needle []
  | c :: rest => hasPref needle (c :: rest) || containsSub needle rest

/-- Numeric value of a decimal digit character. -/
def digitVal (c : Char) : Nat := c.toNat - '0'.toNat

/-- Value of a list of decimal digit characters. -/
def digitsToNat (l : List Char) : Nat := l.foldl (fun acc c => 10 * acc + digitVal c) 0

/-- Embedding of strconv.Atoi as used by readPIDFile: an optional sign
followed by one or more decimal digits and nothing else; anything else is
a parse error (none). -/
def atoiChars : List Char → Option Int
  | [] => none
  | '+' :: rest =>
    if !rest.isEmpty && rest.all Char.isDigit then some (digitsToNat rest : Int) else none
  | '-' :: rest =>
    if !rest.isEmpty && rest.all Char.isDigit then some (-(digitsToNat rest : Int)) else none
  | l =>
    if l.all Char.isDigit then some (digitsToNat l : Int) else none

/-- Parsed RFC3339 timestamp, the result of time.Parse(time.RFC3339, s):
calendar fields, fractional-second value, and the zone offset in minutes. -/
structure Rfc3339 where
  year : Nat
  month : Nat
  day : Nat
  hour : Nat
  minute : Nat
  second : Nat
  frac : Nat
  offsetMinutes : Int
deriving DecidableEq, Repr

/-- Read exactly two decimal digits. -/
def read2 : List Char → Option (Nat × List Char)
  | a :: b :: rest =>
    if a.isDigit && b.isDigit then some (10 * digitVal a + digitVal b, rest) else none
  | _ => none

/-- Read exactly four decimal digits. -/
def read4 : List Char → Option (Nat × List Char)
  | a :: b :: c :: d :: rest =>
    if a.isDigit && b.isDigit && c.isDigit && d.isDigit then
      some (1000 * digitVal a + 100 * digitVal b + 10 * digitVal c + digitVal d, rest)
    else none
  | _ => none

/-- Consume one expected literal character. -/
def expectChar (ch : Char) : List Char → Option (List Char)
  | c :: rest => if c = ch then some rest else none
  | [] => none

/-- Gregorian leap-year rule. -/
def isLeapYear (y : Nat) : Bool := (y % 4 = 0 && y % 100 ≠ 0) || y % 400 = 0

/-- Number of days of a month, as validated by time.Parse. -/
def daysInMonth (y m : Nat) : Nat :=
  if m = 2 then (if isLeapYear y then 29 else 28)
  else if m = 4 || m = 6 || m = 9 || m = 11 then 30
  else 31

/-- Optional fractional seconds: a dot followed by at least one digit. -/
def parseFrac : List Char → Option (Nat × List Char)
  | '.' :: rest =>
    let ds := rest.takeWhile Char.isDigit
    if ds.isEmpty then none
    else some (digitsToNat ds, rest.drop ds.length)
  | l => some (0, l)

/-- Zone suffix: Z, or a signed HH:MM offset, ending the string. -/
def parseOffset : List Char → Option Int
  | ['Z'] => some 0
  | c :: rest =>
    if c = '+' || c = '-' then
      match read2 rest with
      | some (hh, rest2) =>
        match expectChar ':' rest2 with
        | some rest3 =>
          match read2 rest3 with
          | some (mm, rest4) =>
            if rest4.isEmpty && hh ≤ 23 && mm ≤ 59 then
              some (if c = '-' then -(60 * hh + mm : Int) else (60 * hh + mm : Int))
            else none
          | none => none
        | none => none
      | none => none
    else none
  | [] => none

/-- Embedding of time.Parse(time.RFC3339, s): the layout
YYYY-MM-DDTHH:MM:SS with optional fractional seconds and a mandatory
Z or signed HH:MM zone, with calendar range validation. -/
def parseRFC3339Chars (chars : List Char) : Option Rfc3339 := do
  let (y, l) ← read4 chars
  let l ← expectChar '-' l
  let (mo, l) ← read2 l
  let l ← expectChar '-' l
  let (d, l) ← read2 l
  let l ← expectChar 'T' l
  let (h, l) ← read2 l
  let l ← expectChar ':' l
  let (mi, l) ← read2 l
  let l ← expectChar ':' l
  let (se, l) ← read2 l
  let (fr, l) ← parseFrac l
  let off ← parseOffset l
  if 1 ≤ mo ∧ mo ≤ 12 ∧ 1 ≤ d ∧ d ≤ daysInMonth y mo ∧ h ≤ 23 ∧ mi ≤ 59 ∧ se ≤ 59 then
    some ⟨y, mo, d, h, mi, se, fr, off⟩
  else none

/-- time.Parse(time.RFC3339, s) on a string. -/
def parseRFC3339 (s : String) : Option Rfc3339 := parseRFC3339Chars s.data

/-- The parsed `pid` marker file, mirroring the Go struct pidFile.
startedAt is none while unset (the Go zero time). -/
structure pidFile where
  pid : Int
  startedAt : Option Rfc3339
  tag : String
deriving DecidableEq, Repr

/-- One iteration of the line loop of readPIDFile: trim the line, skip
blanks, and dispatch on the three known field prefixes. The Bool is the
seenPID flag. -/
def pidLineStep (st : pidFile × Bool) (rawLine : List Char) : Except String (pidFile × Bool) :=
  let line := trimChars rawLine
  if line = [] then .ok st
  else if hasPref "pid=".data line then
    let raw := trimChars (line.drop 4)
    if raw = [] then .error "pid is empty"
    else
      match atoiChars raw with
      | none => .error ("invalid pid " ++ String.mk raw)
      | some p => .ok ({ st.1 with pid := p }, true)
  else if hasPref "started_at=".data line then
    let raw := trimChars (line.drop 11)
    if raw = [] then .ok st
    else
      match parseRFC3339Chars raw with
      | none => .error ("invalid started_at " ++ String.mk raw)
      | some t => .ok ({ st.1 with startedAt := some t }, st.2)
  else if hasPref "tag=".data line then
    .ok ({ st.1 with tag := String.mk (trimChars (line.drop 4)) }, st.2)
  else .ok st

/-- The line loop of readPIDFile, short-circuiting on the first bad line. -/
def readPIDLines : List (List Char) → (pidFile × Bool) → Except String (pidFile × Bool)
  | [], st => .ok st
  | l :: ls, st =>
    match pidLineStep st l with
    | .error m => .error m
    | .ok st2 => readPIDLines ls st2

/-- Embedding of readPIDFile on the raw file content: split into lines,
run the line loop, and require that a pid field was seen. -/
def readPIDContent (data : String) : Except String pidFile :=
  match readPIDLines (splitLines data.data) (⟨0, none, ""⟩, false) with
  | .error m => .error m
  | .ok (out, seen) => if seen then .ok out else .error "missing pid field"

/-- File-level errors: the not-exist error of os.ReadFile versus any other
(parse) error, the distinction os.IsNotExist makes in the callers. -/
inductive FileErr
  | notExist
  | parseErr (msg : String)
deriving DecidableEq, Repr

/-- readPIDFile including the os.ReadFile step: an absent file yields the
not-exist error, otherwise the content is parsed. -/
def readPIDFile (content : Option String) : Except FileErr pidFile :=
  match content with
  | none => .error .notExist
  | some data =>
    match readPIDContent data with
    | .error m => .error (.parseErr m)
    | .ok r => .ok r

/-- Outcome of delivering signal 0 to a pid, classifying the results
syscall.Kill distinguishes in isPIDRunning: success, EPERM, ESRCH, or any
other error. -/
inductive KillRes
  | ok
  | eperm
  | esrch
  | other
deriving DecidableEq, Repr

/-- Embedding of isPIDRunning: nonpositive pids are an error; success or
EPERM mean the process runs; ESRCH means it does not; any other error is
propagated. The kill argument is the signal-0 oracle of the OS. -/
def isPIDRunning (kill : Int → KillRes) (pid : Int) : Except String Bool :=
  if pid ≤ 0 then .error ("invalid pid " ++ toString pid)
  else
    match kill pid with
    | .ok => .ok true
    | .eperm => .ok true
    | .esrch => .ok false
    | .other => .error "kill failed"

/-- Modelled from the spec: loadPort, whose source is not in the
repository snapshot (only its callers and tests are), reads the Port
record — "text, decimal TCP port" per the spec — and parses it as a
decimal integer; absence of the file propagates the not-exist error. -/
def loadPort (content : Option String) : Except FileErr Int :=
  match content with
  | none => .error .notExist
  | some s =>
    match atoiChars (trimChars s.data) with
    | none => .error (.parseErr "invalid port")
    | some p => .ok p

/-- Outcome of one bounded HTTP liveness probe against a port, classifying
the (bool, error) pairs probePlaygroundCommandServer can return the way
its callers do: alive is (true, nil); timeout is any error satisfying
isTimeoutErr; connRefused is an error wrapping ECONNREFUSED; otherErr is
every other failure, including an unexpected probe status or response. -/
inductive ProbeOutcome
  | alive
  | timeout
  | connRefused
  | otherErr
deriving DecidableEq, Repr

/-- The filesystem state of one dataDir: contents of the pid and port
marker files (none is absence) and the modification age of the pid file
(time.Since of its mtime, in nanoseconds; it is negative when the mtime
lies in the future). -/
structure Env where
  pidContent : Option String
  pidAge : Int
  portContent : Option String
deriving DecidableEq, Repr

/-- The OS and network oracles: signal-0 delivery per pid and the bounded
liveness probe per port. -/
structure Sys where
  kill : Int → KillRes
  probe : Int → ProbeOutcome

/-- The constant pidFileWriteGracePeriod = 2s, in nanoseconds. -/
def pidFileWriteGracePeriod : Int := 2000000000

/-- An operation on the dataDir returns the resulting filesystem state
together with an optional error message (mirroring the Go error return;
none is success). -/
abbrev Outcome := Env × Option String

/-- The tail of cleanupStaleRuntimeFiles reached when the pid file does
not exist: read the Port record; absence succeeds, an unreadable record
is an error, a responsive port is AlreadyInUse, a timed-out probe is a
Timeout error, and every other probe failure removes the Port record and
succeeds. -/
def cleanupPortOnly (sys : Sys) (e : Env) : Outcome :=
  match loadPort e.portContent with
  | .error .notExist => (e, none)
  | .error (.parseErr m) => (e, some m)
  | .ok port =>
    if port ≤ 0 then (e, none)
    else
      match sys.probe port with
      | .alive => (e, some ("playground already running (port=" ++ toString port ++ ")"))
      | .timeout =>
        (e, some ("playground command server probe timed out (port=" ++ toString port ++ ")"))
      | .connRefused => ({ e with portContent := none }, none)
      | .otherErr => ({ e with portContent := none }, none)

/-- Embedding of cleanupStaleRuntimeFiles. A parseable pid record is
probed by signal: running fails AlreadyInUse, dead removes both records.
A missing pid record falls through to the port-only cleanup. An
unreadable pid record whose age is within [0, grace) fails "still
starting"; otherwise the port probe is used as a safety net (responsive
fails AlreadyInUse, a timeout fails Timeout) before removing both
records. -/
def cleanupStaleRuntimeFiles (sys : Sys) (dataDir : String) (e : Env) : Outcome :=
  if goTrim dataDir = "" then (e, some "data dir is empty")
  else
    match readPIDFile e.pidContent with
    | .ok rec =>
      match isPIDRunning sys.kill rec.pid with
      | .error m => (e, some ("check pid " ++ toString rec.pid ++ ": " ++ m))
      | .ok true => (e, some ("playground already running (pid=" ++ toString rec.pid ++ ")"))
      | .ok false => ({ e with pidContent := none, portContent := none }, none)
    | .error .notExist => cleanupPortOnly sys e
    | .error (.parseErr _) =>
      if 0 ≤ e.pidAge ∧ e.pidAge < pidFileWriteGracePeriod then
        (e, some "playground is starting (pid file is being written)")
      else
        match loadPort e.portContent with
        | .ok port =>
          if 0 < port then
            match sys.probe port with
            | .alive =>
              (e, some ("playground already running (port=" ++ toString port ++ ")"))
            | .timeout =>
              (e,
                some ("playground command server probe timed out (port=" ++ toString port ++ ")"))
            | .connRefused => ({ e with pidContent := none, portContent := none }, none)
            | .otherErr => ({ e with pidContent := none, portContent := none }, none)
          else ({ e with pidContent := none, portContent := none }, none)
        | .error _ => ({ e with pidContent := none, portContent := none }, none)

/-- The message of errors.Annotatef(err, "tag %q is already in use", tag)
wrapping a cleanup failure inside claimPlaygroundPIDFile. -/
def claimError (tag msg : String) : String :=
  "tag \"" ++ tag ++ "\" is already in use: " ++ msg

/-- The content claimPlaygroundPIDFile writes into the freshly created pid
file: pid=, started_at= and tag= lines. -/
def pidRecordContent (pid : Int) (now tag : String) : String :=
  "pid=" ++ toString pid ++ "\n" ++ "started_at=" ++ now ++ "\n" ++ "tag=" ++ tag ++ "\n"

/-- The retry loop of claimPlaygroundPIDFile: exclusive creation of the
pid file succeeds exactly when the file is absent; on a creation
collision the stale cleanup runs again and the loop retries. The fuel
bounds the number of iterations (the Go loop is unbounded; two suffice in
the sequential model since a successful cleanup leaves no pid file). -/
def claimCreateLoop (sys : Sys) : Nat → String → String → Int → String → Env → Outcome
  | 0, _, _, _, _, e => (e, some "retry budget exhausted")
  | fuel + 1, dataDir, tag, self, now, e =>
    match e.pidContent with
    | none => ({ e with pidContent := some (pidRecordContent self now tag) }, none)
    | some _ =>
      match cleanupStaleRuntimeFiles sys dataDir e with
      | (e1, some m) => (e1, some (claimError tag m))
      | (e1, none) => claimCreateLoop sys fuel dataDir tag self now e1

/-- Embedding of claimPlaygroundPIDFile: validate dataDir and tag, run the
stale cleanup (annotating its failure with the already-in-use message),
then exclusively create and fill the pid record. self is os.Getpid() and
now the RFC3339 timestamp of time.Now. -/
def claimPlaygroundPIDFile (sys : Sys) (fuel : Nat) (dataDir tag : String) (self : Int)
    (now : String) (e : Env) : Outcome :=
  if goTrim dataDir = "" then (e, some "data dir is empty")
  else if goTrim tag = "" then (e, some "tag is empty")
  else
    match cleanupStaleRuntimeFiles sys dataDir e with
    | (e1, some m) => (e1, some (claimError tag m))
    | (e1, none) => claimCreateLoop sys fuel dataDir tag self now e1

/-- The release closure returned by claimPlaygroundPIDFile: it removes the
pid file. -/
def releasePID (e : Env) : Env := { e with pidContent := none }

/-- A transport-level failure of one HTTP request, as the probe
classifies it afterwards. -/
inductive NetErr
  | timeout
  | connRefused
  | otherNet
deriving DecidableEq, Repr

/-- Outcome of one HTTP GET issued by the probe: either a transport error,
or a response with a status code and the result of JSON-decoding its body
into CommandReply (none when decoding fails). -/
inductive ReqOutcome
  | netErr (e : NetErr)
  | resp (status : Nat) (body : Option CommandReply)
deriving DecidableEq, Repr

/-- The distinguishable errors probePlaygroundCommandServer returns. -/
inductive ProbeErr
  | invalidPort
  | net (e : NetErr)
  | decodeFailed
  | unexpectedPing
  | unexpectedStatus (status : Nat)
  | unexpectedResponse
deriving DecidableEq, Repr

/-- The GET /command half of probePlaygroundCommandServer: a transport
error is returned as is; the body is decoded first (a decode failure is
returned before the status is examined); a status other than 405 is an
unexpected probe status; 405 with ok=false and error "method not allowed"
is alive; anything else is an unexpected probe response. -/
def probeCommand (cmd : ReqOutcome) : Bool × Option ProbeErr :=
  match cmd with
  | .netErr e => (false, some (.net e))
  | .resp status body =>
    match body with
    | none => (false, some .decodeFailed)
    | some reply =>
      if status ≠ 405 then (false, some (.unexpectedStatus status))
      else if !reply.ok && reply.error = "method not allowed" then (true, none)
      else (false, some .unexpectedResponse)

/-- Embedding of probePlaygroundCommandServer: a nonpositive port is an
error; GET /ping is issued first, and its outcome is the ping argument.
A ping transport error returns only when the context already expired,
otherwise the probe falls through to GET /command; a 200 ping reply is
decoded and must be ok with message trimming to "pong"; any non-200 ping
status also falls through to GET /command, whose outcome is the cmd
argument. -/
def probePlaygroundCommandServer (port : Int) (ctxExpired : Bool) (ping cmd : ReqOutcome) :
    Bool × Option ProbeErr :=
  if port ≤ 0 then (false, some .invalidPort)
  else
    match ping with
    | .netErr e => if ctxExpired then (false, some (.net e)) else probeCommand cmd
    | .resp status body =>
      if status = 200 then
        match body with
        | none => (false, some .decodeFailed)
        | some reply =>
          if reply.ok && goTrim reply.message = "pong" then (true, none)
          else (false, some .unexpectedPing)
      else probeCommand cmd

/-- What killProcessOrGroup ends up signalling. -/
inductive KillTarget
  | noop
  | group (pgid : Int)
  | single (pid : Int)
deriving DecidableEq, Repr

/-- Embedding of the Unix killProcessOrGroup: nonpositive pid or zero
signal is a no-op returning nil; when getpgid succeeds and the target is
its own group leader the whole group is signalled via the negative pid,
otherwise only the pid itself. getpgid is the OS oracle (none is a
getpgid failure). -/
def killProcessOrGroup (getpgid : Int → Option Int) (pid sig : Int) : KillTarget :=
  if pid ≤ 0 ∨ sig = 0 then .noop
  else
    match getpgid pid with
    | some pgid => if pgid = pid then .group (-pid) else .single pid
    | none => .single pid

/-- Embedding of the Windows killProcessOrGroup build: an unconditional
no-op returning nil. -/
def killProcessOrGroupWindows (_pid _sig : Int) : KillTarget := .noop

/-- One poll iteration of waitPlaygroundStopped over the dataDir state:
some e means the loop returns nil with resulting state e, none means it
keeps waiting. An absent pid record returns; an unreadable one older than
the grace period returns after removing both records unless the port
probe says the server is alive or timed out; a parseable record returns
after removing the pid record exactly when the pid is decidedly not
running. -/
def waitIter (sys : Sys) (e : Env) : Option Env :=
  match readPIDFile e.pidContent with
  | .error .notExist => some e
  | .error (.parseErr _) =>
    if pidFileWriteGracePeriod ≤ e.pidAge then
      let stillRunning :=
        match loadPort e.portContent with
        | .ok port =>
          if 0 < port then
            match sys.probe port with
            | .alive => true
            | .timeout => true
            | .connRefused => false
            | .otherErr => false
          else false
        | .error _ => false
      if !stillRunning then some { e with pidContent := none, portContent := none }
      else none
    else none
  | .ok rec =>
    match isPIDRunning sys.kill rec.pid with
    | .ok false => some { e with pidContent := none }
    | .ok true => none
    | .error _ => none

/-- The polling loop of waitPlaygroundStopped: iteration i observes the
dataDir state tr i; time.Sleep(200 ms) is the only modelled passage of
time, so the deadline check after iteration i compares 200 i ms against
the deadline. The fuel only bounds the recursion; the top-level wrapper
passes enough for the deadline check to fire first. -/
def waitLoop (sys : Sys) (tr : Nat → Env) : Nat → Nat → Int → Except String Env
  | 0, _, _ => .error "retry budget exhausted"
  | fuel + 1, i, deadline =>
    match waitIter sys (tr i) with
    | some e2 => .ok e2
    | none =>
      if deadline < 200 * (i : Int) then .error "timeout waiting for playground to stop"
      else waitLoop sys tr fuel (i + 1) deadline

/-- Embedding of waitPlaygroundStopped: an empty dataDir is an error; a
nonpositive timeout is replaced by the 60 s default; then the 200 ms
polling loop runs until an iteration returns or the deadline elapses.
Timeouts are in milliseconds. -/
def waitPlaygroundStopped (sys : Sys) (dataDir : String) (timeout : Int) (tr : Nat → Env) :
    Except String Env :=
  if goTrim dataDir = "" then .error "data dir is empty"
  else
    let t := if timeout ≤ 0 then 60000 else timeout
    waitLoop sys tr (t.toNat / 200 + 2) 0 t

/-- An event of the plain progress engine, restricted to what the sync
barrier distinguishes: out stands for any non-sync event (print_lines,
group or task events) carried verbatim to the event log, sync is the
internal barrier event of UI.Sync with its fresh id. -/
inductive PEvent
  | out (payload : String)
  | sync (id : Nat)
deriving DecidableEq, Repr

/-- The observable state of the plain engine: the events written to the
event log and the sync ids fulfilled, each in processing order. -/
structure EngineSt where
  log : List PEvent
  fulfilled : List Nat
deriving DecidableEq, Repr

/-- Embedding of UI.processPlainEvent: a non-sync event is written to the
event log (then applied and rendered, which the model abstracts away); a
sync event is not logged and instead fulfills its waiter. -/
def processPlainEvent (st : EngineSt) (e : PEvent) : EngineSt :=
  match e with
  | .out _ => { st with log := st.log ++ [e] }
  | .sync id => { st with fulfilled := st.fulfilled ++ [id] }

/-- The plain engine loop of UI.runPlain consuming a FIFO queue of
events in order. -/
def processQueue (st : EngineSt) (q : List PEvent) : EngineSt :=
  q.foldl processPlainEvent st

/-- Whether an event is a non-sync (logged) event. -/
def isOutEvent : PEvent → Bool
  | .out _ => true
  | .sync _ => false

/-- The flush UI.Sync performs first: a pending partial line of
UI.Writer() is emitted as one print_lines event, nothing otherwise. -/
def flushEvents (buf : String) : List PEvent :=
  if buf = "" then [] else [.out buf]

/-- The event queue as UI.Sync leaves it: the previously emitted events,
then the flushed partial line, then the sync barrier event with its
fresh id. Sync returns once the engine fulfills that id. -/
def syncQueue (pre : List PEvent) (buf : String) (id : Nat) : List PEvent :=
  pre ++ flushEvents buf ++ [.sync id]

/-- Modelled from the spec: the daemon controller, whose startup code is
not in the repository snapshot, "creates the Port record only after such
a Sync returns" — i.e. only once the engine has fulfilled the sync
barrier id. The Port record is therefore observable in exactly the
engine states whose fulfilled list contains that id. -/
def controllerPortCreated (st : EngineSt) (id : Nat) : Bool :=
  st.fulfilled.contains id

lemma cleanupStale_pid_ok (sys : Sys) (dataDir : String) (e : Env) (rec : pidFile)
    (hd : goTrim dataDir ≠ "") (hr : readPIDFile e.pidContent = .ok rec) :
    cleanupStaleRuntimeFiles sys dataDir e =
      match isPIDRunning sys.kill rec.pid with
      | .error m => (e, some ("check pid " ++ toString rec.pid ++ ": " ++ m))
      | .ok true => (e, some ("playground already running (pid=" ++ toString rec.pid ++ ")"))
      | .ok false => ({ e with pidContent := none, portContent := none }, none) := by
  unfold cleanupStaleRuntimeFiles
  rw [if_neg hd, hr]

lemma cleanupStale_pid_absent (sys : Sys) (dataDir : String) (e : Env)
    (hd : goTrim dataDir ≠ "") (hp : e.pidContent = none) :
    cleanupStaleRuntimeFiles sys dataDir e = cleanupPortOnly sys e := by
  unfold cleanupStaleRuntimeFiles
  rw [if_neg hd, hp]
  rfl

/-- C4 (confirmed): a parseable PID record is probed by signal; a running
pid fails AlreadyInUse(pid) without touching files, a dead pid removes
both the PID and the Port record and succeeds, whatever the Port record
holds. -/
theorem cleanupStale_parseable_pid_decision (sys : Sys) (dataDir : String) (e : Env)
    (rec : pidFile) (hd : goTrim dataDir ≠ "") (hr : readPIDFile e.pidContent = .ok rec) :
    (isPIDRunning sys.kill rec.pid = .ok true →
      cleanupStaleRuntimeFiles sys dataDir e =
        (e, some ("playground already running (pid=" ++ toString rec.pid ++ ")"))) ∧
    (isPIDRunning sys.kill rec.pid = .ok false →
      cleanupStaleRuntimeFiles sys dataDir e =
        ({ e with pidContent := none, portContent := none }, none)) := by
  constructor <;> intro hrun <;> rw [cleanupStale_pid_ok sys dataDir e rec hd hr, hrun]

/-- Witness for C4: a dead pid (signal 0 yields ESRCH) has both records
removed even though a Port record is present. -/
theorem cleanupStale_parseable_pid_decision_witness :
    cleanupStaleRuntimeFiles ⟨fun _ => .esrch, fun _ => .alive⟩ "/d"
        ⟨some "pid=77", 0, some "80"⟩ =
      (⟨none, 0, none⟩, none) :=
  (cleanupStale_parseable_pid_decision ⟨fun _ => .esrch, fun _ => .alive⟩ "/d"
      ⟨some "pid=77", 0, some "80"⟩ ⟨77, none, ""⟩ (by decide) (by decide)).2 (by decide)

/-- C9 (confirmed): isPIDRunning reports a process as running when signal
0 fails with EPERM, and cleanupStaleRuntimeFiles consequently fails
AlreadyInUse(pid) for a PID record naming a live process the caller may
not signal. -/
theorem isPIDRunning_eperm_alreadyInUse (sys : Sys) (dataDir : String) (e : Env)
    (rec : pidFile) (hd : goTrim dataDir ≠ "") (hr : readPIDFile e.pidContent = .ok rec)
    (hpid : 0 < rec.pid) (hk : sys.kill rec.pid = .eperm) :
    isPIDRunning sys.kill rec.pid = .ok true ∧
    cleanupStaleRuntimeFiles sys dataDir e =
      (e, some ("playground already running (pid=" ++ toString rec.pid ++ ")")) := by
  have hrun : isPIDRunning sys.kill rec.pid = .ok true := by
    unfold isPIDRunning
    rw [if_neg (by omega), hk]
  exact ⟨hrun, by rw [cleanupStale_pid_ok sys dataDir e rec hd hr, hrun]⟩

/-- Witness for C9: pid 5 exists but belongs to another user (EPERM);
the claim of its dataDir is refused. -/
theorem isPIDRunning_eperm_alreadyInUse_witness :
    isPIDRunning (fun _ => KillRes.eperm) 5 = .ok true ∧
    cleanupStaleRuntimeFiles ⟨fun _ => .eperm, fun _ => .connRefused⟩ "/d"
        ⟨some "pid=5", 0, none⟩ =
      (⟨some "pid=5", 0, none⟩, some "playground already running (pid=5)") :=
  isPIDRunning_eperm_alreadyInUse ⟨fun _ => .eperm, fun _ => .connRefused⟩ "/d"
    ⟨some "pid=5", 0, none⟩ ⟨5, none, ""⟩ (by decide) (by decide) (by decide) (by decide)

/-- C1 (corrected, counterexample): with the PID record absent and a Port
record holding port 80, a probe failure that is neither a timeout nor
connection-refused (an unexpected probe response) makes
cleanupStaleRuntimeFiles REMOVE the Port record and SUCCEED, while the
claim demands a Timeout/InUse failure that leaves the record in place. -/
theorem cleanupStale_portOnly_claim_false :
    loadPort (some "80") = .ok 80 ∧
    cleanupStaleRuntimeFiles ⟨fun _ => .esrch, fun _ => .otherErr⟩ "/d"
        ⟨none, 0, some "80"⟩ =
      (⟨none, 0, none⟩, none) := by
  decide

/-- C1 (corrected, amended): with the PID record absent and a Port record
holding a positive port: a responsive probe fails AlreadyInUse(port)
leaving the record; a timed-out probe fails Timeout leaving the record;
connection-refused and every other probe failure remove the Port record
and succeed. -/
theorem cleanupStale_portOnly_probe_behavior (sys : Sys) (dataDir : String) (e : Env)
    (port : Int) (hd : goTrim dataDir ≠ "") (hp : e.pidContent = none)
    (hl : loadPort e.portContent = .ok port) (hpos : 0 < port) :
    (sys.probe port = .alive →
      cleanupStaleRuntimeFiles sys dataDir e =
        (e, some ("playground already running (port=" ++ toString port ++ ")"))) ∧
    (sys.probe port = .timeout →
      cleanupStaleRuntimeFiles sys dataDir e =
        (e, some ("playground command server probe timed out (port=" ++ toString port ++ ")"))) ∧
    (sys.probe port = .connRefused →
      cleanupStaleRuntimeFiles sys dataDir e = ({ e with portContent := none }, none)) ∧
    (sys.probe port = .otherErr →
      cleanupStaleRuntimeFiles sys dataDir e = ({ e with portContent := none }, none)) := by
  rw [cleanupStale_pid_absent sys dataDir e hd hp]
  have hple : ¬port ≤ 0 := by omega
  refine ⟨?_, ?_, ?_, ?_⟩ <;> intro hpr <;> simp [cleanupPortOnly, hl, hple, hpr]

/-- Witness for C1 (amended): a responsive port is reported AlreadyInUse
and the Port record stays. -/
theorem cleanupStale_portOnly_probe_behavior_witness :
    cleanupStaleRuntimeFiles ⟨fun _ => .esrch, fun _ => .alive⟩ "/d"
        ⟨none, 0, some "80"⟩ =
      (⟨none, 0, some "80"⟩, some "playground already running (port=80)") :=
  (cleanupStale_portOnly_probe_behavior ⟨fun _ => .esrch, fun _ => .alive⟩ "/d"
      ⟨none, 0, some "80"⟩ 80 (by decide) (by decide) (by decide) (by decide)).1 (by decide)

/-- C3 (corrected, counterexample): an unparsable PID record whose
modification age is NEGATIVE (mtime in the future, hence younger than the
grace window) is not protected: cleanupStaleRuntimeFiles succeeds and
removes the record instead of failing "still starting", because the code
requires the age to also be nonnegative. -/
theorem cleanupStale_grace_claim_false :
    readPIDContent "" = .error "missing pid field" ∧
    (-1 : Int) < pidFileWriteGracePeriod ∧
    cleanupStaleRuntimeFiles ⟨fun _ => .esrch, fun _ => .connRefused⟩ "/d"
        ⟨some "", -1, none⟩ =
      (⟨none, -1, none⟩, none) := by
  decide

/-- C3 (corrected, amended): an unparsable PID record whose modification
age is nonnegative and below the 2 s grace window makes
cleanupStaleRuntimeFiles fail "still starting" with the dataDir left
exactly as it was. -/
theorem cleanupStale_grace_window_frame (sys : Sys) (dataDir : String) (e : Env)
    (s m : String) (hd : goTrim dataDir ≠ "") (hc : e.pidContent = some s)
    (hp : readPIDContent s = .error m) (h0 : 0 ≤ e.pidAge)
    (h2 : e.pidAge < pidFileWriteGracePeriod) :
    cleanupStaleRuntimeFiles sys dataDir e =
      (e, some "playground is starting (pid file is being written)") := by
  have hr : readPIDFile e.pidContent = .error (.parseErr m) := by
    rw [hc]
    simp only [readPIDFile]
    rw [hp]
  unfold cleanupStaleRuntimeFiles
  rw [if_neg hd, hr]
  exact if_pos ⟨h0, h2⟩

/-- Witness for C3 (amended): a 100 ns old corrupt record with a Port
record alongside; claim fails and both files stay. -/
theorem cleanupStale_grace_window_frame_witness :
    cleanupStaleRuntimeFiles ⟨fun _ => .esrch, fun _ => .alive⟩ "/d"
        ⟨some "", 100, some "9"⟩ =
      (⟨some "", 100, some "9"⟩, some "playground is starting (pid file is being written)") :=
  cleanupStale_grace_window_frame ⟨fun _ => .esrch, fun _ => .alive⟩ "/d"
    ⟨some "", 100, some "9"⟩ "" "missing pid field" (by decide) (by decide) (by decide)
    (by decide) (by decide)

/-- The signal-0 oracle of the claim scenario: exactly the claiming
process itself (pid 4242) is running. -/
def demoSys : Sys := ⟨fun p => if p = 4242 then .ok else .esrch, fun _ => .connRefused⟩

/-- The PID record the claim scenario writes. -/
def demoRecord : String := pidRecordContent 4242 "2026-01-13T20:00:00Z" "demo"

/-- C2 (confirmed): on an empty dataDir, claim succeeds and writes a PID
record carrying the callers pid and tag=demo; a second claim without
releasing fails with an error containing "already in use" and changes
nothing; release removes the PID record; a subsequent claim succeeds
again. -/
theorem claim_release_reclaim_scenario :
    claimPlaygroundPIDFile demoSys 2 "/data/demo" "demo" 4242 "2026-01-13T20:00:00Z"
        ⟨none, 0, none⟩ =
      (⟨some demoRecord, 0, none⟩, none) ∧
    readPIDContent demoRecord = .ok ⟨4242, some ⟨2026, 1, 13, 20, 0, 0, 0, 0⟩, "demo"⟩ ∧
    claimPlaygroundPIDFile demoSys 2 "/data/demo" "demo" 4242 "2026-01-13T20:00:00Z"
        ⟨some demoRecord, 0, none⟩ =
      (⟨some demoRecord, 0, none⟩,
        some (claimError "demo" "playground already running (pid=4242)")) ∧
    containsSub "already in use".data
        (claimError "demo" "playground already running (pid=4242)").data = true ∧
    releasePID ⟨some demoRecord, 0, none⟩ = ⟨none, 0, none⟩ ∧
    claimPlaygroundPIDFile demoSys 2 "/data/demo" "demo" 4242 "2026-01-13T20:00:00Z"
        (releasePID ⟨some demoRecord, 0, none⟩) =
      (⟨some demoRecord, 0, none⟩, none) := by
  decide

/-- C8 (confirmed): for a positive pid and a non-zero signal, the Unix
killProcessOrGroup signals the whole process group (negative pid) exactly
when getpgid succeeds with the pid itself, and otherwise signals only the
pid; the Windows build is an unconditional no-op. -/
theorem killProcessOrGroup_group_leader (getpgid : Int → Option Int) (pid sig : Int)
    (hpid : 0 < pid) (hsig : sig ≠ 0) :
    (killProcessOrGroup getpgid pid sig = .group (-pid) ↔ getpgid pid = some pid) ∧
    (getpgid pid ≠ some pid → killProcessOrGroup getpgid pid sig = .single pid) ∧
    killProcessOrGroupWindows pid sig = .noop := by
  have hcond : ¬(pid ≤ 0 ∨ sig = 0) := by omega
  refine ⟨?_, ?_, rfl⟩ <;> unfold killProcessOrGroup
  · rw [if_neg hcond]
    cases hg : getpgid pid with
    | none => simp
    | some g =>
      by_cases hgp : g = pid
      · subst hgp
        simp
      · simp [hgp]
  · intro hne
    rw [if_neg hcond]
    cases hg : getpgid pid with
    | none => rfl
    | some g =>
      have hgp : g ≠ pid := fun hc => hne (by rw [hg, hc])
      simp [hgp]

/-- Witness for C8: pid 7 is its own group leader, so the whole group is
signalled through -7. -/
theorem killProcessOrGroup_group_leader_witness :
    killProcessOrGroup (fun p => some p) 7 9 = .group (-7) :=
  (killProcessOrGroup_group_leader (fun p => some p) 7 9 (by decide) (by decide)).1.mpr rfl

/-- The signal-0 oracle of the wait scenarios: every pid is running. -/
def waitDemoSys : Sys := ⟨fun _ => .ok, fun _ => .connRefused⟩

/-- A dataDir trace whose PID record (naming a live pid) disappears at
poll iteration 5. -/
def waitTraceGone : Nat → Env := fun i =>
  if i < 5 then ⟨some "pid=9", 0, none⟩ else ⟨none, 0, none⟩

/-- A dataDir trace whose PID record names a live pid forever. -/
def waitTraceStuck : Nat → Env := fun _ => ⟨some "pid=9", 0, none⟩

/-- C10 (confirmed): a nonpositive timeout does not make
waitPlaygroundStopped fail immediately: it behaves exactly as the 60 s
default (first conjunct); with timeout -1 the loop keeps polling at the
200 ms interval and succeeds once the PID record is gone at iteration 5
(second conjunct); and the deadline check only fails once the 200 ms
steps pass the 60 s deadline, at iteration 301 (third conjunct). -/
theorem waitStopped_nonpositive_timeout_default :
    (∀ (sys : Sys) (tr : Nat → Env) (dataDir : String) (timeout : Int), timeout ≤ 0 →
      waitPlaygroundStopped sys dataDir timeout tr =
        waitPlaygroundStopped sys dataDir 60000 tr) ∧
    waitPlaygroundStopped waitDemoSys "/d" (-1) waitTraceGone = .ok ⟨none, 0, none⟩ ∧
    waitLoop waitDemoSys waitTraceStuck 2 300 60000 =
      .error "timeout waiting for playground to stop" := by
  refine ⟨?_, by decide, by decide⟩
  intro sys tr dataDir timeout h
  unfold waitPlaygroundStopped
  rw [if_pos h, if_neg (by omega : ¬(60000 : Int) ≤ 0)]

/-- Witness for C10: timeout -3 behaves as the 60 s default on the stuck
trace. -/
theorem waitStopped_nonpositive_timeout_default_witness :
    waitPlaygroundStopped waitDemoSys "/d" (-3) waitTraceStuck =
      waitPlaygroundStopped waitDemoSys "/d" 60000 waitTraceStuck :=
  waitStopped_nonpositive_timeout_default.1 waitDemoSys waitTraceStuck "/d" (-3) (by decide)

/-- C6 (corrected, counterexample): a /ping reply with status 500 (the
endpoint is present but failing, not absent) still makes the probe fall
back to GET /command and report alive on a 405 method-not-allowed reply,
while the claim says only a 404 ping triggers the fallback and any other
ping response must yield an unexpected-probe-response error. -/
theorem probe_fallback_claim_false :
    probePlaygroundCommandServer 80 false (.resp 500 none)
        (.resp 405 (some ⟨false, "", "method not allowed"⟩)) =
      (true, none) ∧
    (500 : Nat) ≠ 404 := by
  decide

/-- C6 (corrected, amended): for a positive port, the probe reports alive
on a 200 ping decoding to ok with message trimming to "pong"; it falls
back to GET /command on EVERY non-200 ping status and on a ping transport
error with the probe context still live (a transport error with the
context expired is returned as is); the fallback reports alive exactly on
HTTP 405 decoding to ok=false with error "method not allowed", returns
transport and decode failures, and flags any other reply as an
unexpected status or response. -/
theorem probe_liveness_behavior (port : Int) (hpos : 0 < port) :
    (∀ (ctxExpired : Bool) (reply : CommandReply) (cmd : ReqOutcome),
      probePlaygroundCommandServer port ctxExpired (.resp 200 (some reply)) cmd = (true, none) ↔
        (reply.ok && goTrim reply.message = "pong") = true) ∧
    (∀ (ctxExpired : Bool) (status : Nat) (body : Option CommandReply) (cmd : ReqOutcome),
      status ≠ 200 →
        probePlaygroundCommandServer port ctxExpired (.resp status body) cmd =
          probeCommand cmd) ∧
    (∀ (e : NetErr) (cmd : ReqOutcome),
      probePlaygroundCommandServer port true (.netErr e) cmd = (false, some (.net e)) ∧
      probePlaygroundCommandServer port false (.netErr e) cmd = probeCommand cmd) ∧
    (∀ (status : Nat) (reply : CommandReply),
      probeCommand (.resp status (some reply)) = (true, none) ↔
        (status = 405 ∧ (!reply.ok && reply.error = "method not allowed") = true)) ∧
    (∀ e : NetErr, probeCommand (.netErr e) = (false, some (.net e))) ∧
    (∀ status : Nat, probeCommand (.resp status none) = (false, some .decodeFailed)) := by
  have hple : ¬port ≤ 0 := by omega
  refine ⟨?_, ?_, ?_, ?_, fun e => rfl, fun status => rfl⟩
  · intro ctxExpired reply cmd
    by_cases hc : (reply.ok && goTrim reply.message = "pong") = true <;>
      simp [probePlaygroundCommandServer, hple, hc]
  · intro ctxExpired status body cmd hs
    simp [probePlaygroundCommandServer, hple, hs]
  · intro e cmd
    constructor <;> simp [probePlaygroundCommandServer, hple]
  · intro status reply
    by_cases hs : status = 405
    · subst hs
      by_cases hc : (!reply.ok && reply.error = "method not allowed") = true <;>
        simp [probeCommand, hc]
    · simp [probeCommand, hs]

/-- Witness for C6 (amended): a healthy /ping reply is reported alive. -/
theorem probe_liveness_behavior_witness :
    probePlaygroundCommandServer 80 false (.resp 200 (some ⟨true, "pong", ""⟩))
        (.netErr .timeout) =
      (true, none) :=
  ((probe_liveness_behavior 80 (by decide)).1 false ⟨true, "pong", ""⟩
      (.netErr .timeout)).mpr (by decide)

/-- Spec-side classifier for C7: a line readPIDFile rejects — a pid=
field whose trimmed value is empty or not an integer, or a started_at=
field whose trimmed value is non-empty and not RFC3339. -/
def specBadPIDLine (rawLine : List Char) : Bool :=
  let line := trimChars rawLine
  if line = [] then false
  else if hasPref "pid=".data line then
    let raw := trimChars (line.drop 4)
    decide (raw = []) || (atoiChars raw).isNone
  else if hasPref "started_at=".data line then
    let raw := trimChars (line.drop 11)
    !decide (raw = []) && (parseRFC3339Chars raw).isNone
  else false

/-- Spec-side classifier for C7: a line that sets the seenPID flag — a
pid= field with a non-empty integer value. -/
def specGoodPIDLine (rawLine : List Char) : Bool :=
  let line := trimChars rawLine
  if line = [] then false
  else
    hasPref "pid=".data line && !decide (trimChars (line.drop 4) = []) &&
      (atoiChars (trimChars (line.drop 4))).isSome

lemma pidLineStep_spec (st : pidFile × Bool) (l : List Char) :
    (specBadPIDLine l = true → ∃ m, pidLineStep st l = .error m) ∧
    (specBadPIDLine l = false →
      ∃ st2, pidLineStep st l = .ok st2 ∧ st2.2 = (st.2 || specGoodPIDLine l)) := by
  by_cases h0 : trimChars l = []
  · constructor
    · intro hbad
      exfalso
      simp [specBadPIDLine, h0] at hbad
    · intro _
      exact ⟨st, by simp [pidLineStep, h0], by simp [specGoodPIDLine, h0]⟩
  · by_cases h1 : hasPref "pid=".data (trimChars l) = true
    · by_cases h2 : trimChars ((trimChars l).drop 4) = []
      · constructor
        · intro _
          exact ⟨"pid is empty", by simp [pidLineStep, h0, h1, h2]⟩
        · intro hbad
          exfalso
          simp [specBadPIDLine, h0, h1, h2] at hbad
      · cases ha : atoiChars (trimChars ((trimChars l).drop 4)) with
        | none =>
          constructor
          · intro _
            exact ⟨"invalid pid " ++ String.mk (trimChars ((trimChars l).drop 4)),
              by simp [pidLineStep, h0, h1, h2, ha]⟩
          · intro hbad
            exfalso
            simp [specBadPIDLine, h0, h1, h2, ha] at hbad
        | some p =>
          constructor
          · intro hbad
            exfalso
            simp [specBadPIDLine, h0, h1, h2, ha] at hbad
          · intro _
            refine ⟨({ st.1 with pid := p }, true), by simp [pidLineStep, h0, h1, h2, ha], ?_⟩
            simp [specGoodPIDLine, h0, h1, h2, ha]
    · by_cases h3 : hasPref "started_at=".data (trimChars l) = true
      · by_cases h4 : trimChars ((trimChars l).drop 11) = []
        · constructor
          · intro hbad
            exfalso
            simp [specBadPIDLine, h0, h1, h3, h4] at hbad
          · intro _
            exact ⟨st, by simp [pidLineStep, h0, h1, h3, h4],
              by simp [specGoodPIDLine, h0, h1]⟩
        · cases hp : parseRFC3339Chars (trimChars ((trimChars l).drop 11)) with
          | none =>
            constructor
            · intro _
              exact ⟨"invalid started_at " ++ String.mk (trimChars ((trimChars l).drop 11)),
                by simp [pidLineStep, h0, h1, h3, h4, hp]⟩
            · intro hbad
              exfalso
              simp [specBadPIDLine, h0, h1, h3, h4, hp] at hbad
          | some t =>
            constructor
            · intro hbad
              exfalso
              simp [specBadPIDLine, h0, h1, h3, h4, hp] at hbad
            · intro _
              exact ⟨({ st.1 with startedAt := some t }, st.2),
                by simp [pidLineStep, h0, h1, h3, h4, hp],
                by simp [specGoodPIDLine, h0, h1]⟩
      · constructor
        · intro hbad
          exfalso
          simp [specBadPIDLine, h0, h1, h3] at hbad
        · intro _
          by_cases h5 : hasPref "tag=".data (trimChars l) = true
          · exact ⟨({ st.1 with tag := String.mk (trimChars ((trimChars l).drop 4)) }, st.2),
              by simp [pidLineStep, h0, h1, h3, h5], by simp [specGoodPIDLine, h0, h1]⟩
          · exact ⟨st, by simp [pidLineStep, h0, h1, h3, h5],
              by simp [specGoodPIDLine, h0, h1]⟩

lemma readPIDLines_ok_iff : ∀ (ls : List (List Char)) (st : pidFile × Bool),
    (∃ st2, readPIDLines ls st = .ok st2) ↔
      ls.all (fun l => !specBadPIDLine l) = true := by
  intro ls
  induction ls with
  | nil => intro st; simp [readPIDLines]
  | cons l ls ih =>
    intro st
    obtain ⟨hbad, hgood⟩ := pidLineStep_spec st l
    by_cases hb : specBadPIDLine l = true
    · obtain ⟨m, hm⟩ := hbad hb
      simp [readPIDLines, hm, hb]
    · have hb2 : specBadPIDLine l = false := by
        revert hb; cases specBadPIDLine l <;> simp
      obtain ⟨st2, hst2, _⟩ := hgood hb2
      simp [readPIDLines, hst2, hb2, ih st2]

lemma readPIDLines_seen : ∀ (ls : List (List Char)) (st st2 : pidFile × Bool),
    readPIDLines ls st = .ok st2 → st2.2 = (st.2 || ls.any specGoodPIDLine) := by
  intro ls
  induction ls with
  | nil =>
    intro st st2 h
    simp [readPIDLines] at h
    subst h
    simp
  | cons l ls ih =>
    intro st st2 h
    obtain ⟨hbad, hgood⟩ := pidLineStep_spec st l
    by_cases hb : specBadPIDLine l = true
    · obtain ⟨m, hm⟩ := hbad hb
      simp [readPIDLines, hm] at h
    · have hb2 : specBadPIDLine l = false := by
        revert hb; cases specBadPIDLine l <;> simp
      obtain ⟨stm, hstm, hseen⟩ := hgood hb2
      simp only [readPIDLines, hstm] at h
      rw [ih stm st2 h, hseen]
      simp [List.any_cons, Bool.or_assoc]

/-- C7 (corrected): readPIDFile succeeds exactly when no line is bad (a
pid= field with an empty or non-integer value, or a started_at= field
with a NON-EMPTY value that is not RFC3339) and some line carries a valid
pid; blank lines, unknown lines, and — contrary to the claim — a
started_at= field with an empty value are ignored. The second conjunct
shows blank, unknown and empty-started_at lines being skipped on a
concrete record. -/
theorem readPID_failure_characterization :
    (∀ data : String,
      (∃ r, readPIDContent data = .ok r) ↔
        ((splitLines data.data).all (fun l => !specBadPIDLine l) = true ∧
          (splitLines data.data).any specGoodPIDLine = true)) ∧
    readPIDContent "pid= 7\nx\n tag= hi \nstarted_at=\n" = .ok ⟨7, none, "hi"⟩ := by
  refine ⟨?_, by decide⟩
  intro data
  constructor
  · rintro ⟨r, hr⟩
    cases hls : readPIDLines (splitLines data.data) (⟨0, none, ""⟩, false) with
    | error m =>
      exfalso
      simp [readPIDContent, hls] at hr
    | ok st2 =>
      obtain ⟨out, seen⟩ := st2
      cases seen with
      | false =>
        exfalso
        simp [readPIDContent, hls] at hr
      | true =>
        refine ⟨(readPIDLines_ok_iff _ _).mp ⟨(out, true), hls⟩, ?_⟩
        have hseen := readPIDLines_seen _ _ _ hls
        simpa using hseen.symm
  · rintro ⟨hall, hany⟩
    obtain ⟨st2, hls⟩ :=
      (readPIDLines_ok_iff (splitLines data.data) (⟨0, none, ""⟩, false)).mpr hall
    obtain ⟨out, seen⟩ := st2
    have hseen := readPIDLines_seen _ _ _ hls
    simp [hany] at hseen
    exact ⟨out, by simp [readPIDContent, hls, hseen]⟩

/-- C7 (corrected, counterexample): the record "pid=1" followed by a
started_at= line with an EMPTY value parses successfully, while the claim
says readPIDFile must fail whenever a present field is unparsable — and
the empty string is not RFC3339. -/
theorem readPID_empty_started_at_claim_false :
    readPIDContent "pid=1\nstarted_at=" = .ok ⟨1, none, ""⟩ ∧
    parseRFC3339 "" = none := by
  decide

/-- The sync id an event carries, if any. -/
def syncIdOf : PEvent → Option Nat
  | .sync id => some id
  | .out _ => none

lemma processQueue_log : ∀ (q : List PEvent) (st : EngineSt),
    (processQueue st q).log = st.log ++ q.filter isOutEvent := by
  intro q
  induction q with
  | nil => intro st; simp [processQueue]
  | cons e q ih =>
    intro st
    have hstep : processQueue st (e :: q) = processQueue (processPlainEvent st e) q := rfl
    rw [hstep, ih]
    cases e with
    | out s => simp [processPlainEvent, isOutEvent, List.filter_cons, List.append_assoc]
    | sync id => simp [processPlainEvent, isOutEvent, List.filter_cons]

lemma processQueue_fulfilled : ∀ (q : List PEvent) (st : EngineSt),
    (processQueue st q).fulfilled = st.fulfilled ++ q.filterMap syncIdOf := by
  intro q
  induction q with
  | nil => intro st; simp [processQueue]
  | cons e q ih =>
    intro st
    have hstep : processQueue st (e :: q) = processQueue (processPlainEvent st e) q := rfl
    rw [hstep, ih]
    cases e with
    | out s => simp [processPlainEvent, syncIdOf, List.filterMap_cons]
    | sync id => simp [processPlainEvent, syncIdOf, List.filterMap_cons, List.append_assoc]

lemma sync_mem_fulfilled (q : List PEvent) (id : Nat) :
    id ∈ (processQueue ⟨[], []⟩ q).fulfilled ↔ PEvent.sync id ∈ q := by
  rw [processQueue_fulfilled]
  simp only [List.nil_append, List.mem_filterMap]
  constructor
  · rintro ⟨e, he, hid⟩
    cases e with
    | out s => simp [syncIdOf] at hid
    | sync j =>
      simp [syncIdOf] at hid
      subst hid
      exact he
  · intro h
    exact ⟨.sync id, h, rfl⟩

/-- C5 (confirmed): the plain engine consumes its queue in FIFO order and
fulfills the sync barrier only after logging everything queued before it;
so in any engine state obtained from a prefix of the queue in which the
controller has created the Port record (the sync id being fulfilled — the
controller does so only after UI.Sync returns), the event log already
holds every non-sync event emitted before the Sync call, including the
flushed partial output line. -/
theorem sync_barrier_port_record (pre : List PEvent) (buf : String) (id : Nat)
    (q2 rest : List PEvent) (hfresh : PEvent.sync id ∉ pre)
    (hsplit : q2 ++ rest = syncQueue pre buf id)
    (hport : controllerPortCreated (processQueue ⟨[], []⟩ q2) id = true) :
    (processQueue ⟨[], []⟩ q2).log = pre.filter isOutEvent ++ flushEvents buf := by
  have hmem : PEvent.sync id ∈ q2 := by
    rw [← sync_mem_fulfilled]
    unfold controllerPortCreated at hport
    simpa using hport
  have hsyncnotin : PEvent.sync id ∉ pre ++ flushEvents buf := by
    intro hmem2
    rcases List.mem_append.mp hmem2 with h | h
    · exact hfresh h
    · by_cases hbuf : buf = "" <;> simp [flushEvents, hbuf] at h
  have hrest : rest = [] := by
    by_contra hne
    have hc := congrArg List.length hsplit
    simp [syncQueue, List.length_append] at hc
    have hrl : 0 < rest.length := List.length_pos.mpr hne
    have hle : q2.length ≤ (pre ++ flushEvents buf).length := by
      simp only [List.length_append]
      omega
    have h1 : (q2 ++ rest).take q2.length = q2 := List.take_left q2 rest
    rw [hsplit] at h1
    have heq : (pre ++ flushEvents buf) ++ [PEvent.sync id] = syncQueue pre buf id := by
      simp [syncQueue, List.append_assoc]
    have hq2take : ((pre ++ flushEvents buf) ++ [PEvent.sync id]).take q2.length = q2 := by
      rw [heq]
      exact h1
    rw [List.take_append_of_le_length hle] at hq2take
    exact hsyncnotin (List.take_subset _ _ (hq2take.symm ▸ hmem))
  have hq2 : q2 = syncQueue pre buf id := by
    rw [hrest] at hsplit
    simpa using hsplit
  rw [hq2, syncQueue, processQueue_log]
  by_cases hbuf : buf = "" <;>
    simp [flushEvents, hbuf, List.filter_append, isOutEvent]

/-- Witness for C5: one output line followed by the sync barrier; once
the barrier is fulfilled the log holds the line. -/
theorem sync_barrier_port_record_witness :
    (processQueue ⟨[], []⟩ (syncQueue [PEvent.out "hello"] "" 1)).log =
      List.filter isOutEvent [PEvent.out "hello"] ++ flushEvents "" :=
  sync_barrier_port_record [PEvent.out "hello"] "" 1
    (syncQueue [PEvent.out "hello"] "" 1) [] (by decide) (by decide) (by decide)

end PlaygroundNG
